import Mathlib

/-!
Verification of the SCAPP UN Comtrade RAIV pipeline.

This file shallowly embeds the computational core of the repository:

* `src/raiv_calculation_model.py`  — the dataframe-library pipeline (`RAIVCalculator`);
* `src/raiv_calculation_simple.py` — the primitive-dictionary pipeline (`SimpleRAIVCalculator`);
* `src/recommendations_app.py` and `src/visualizations/recommendations_app.py`
  — the two explorer scripts.

Numeric values are modelled with `ℚ`; SQL tables are lists of rows; Python
exceptions are modelled with `Except`.  Definitions are written to mirror the
Python source line by line; the theorems at the end of the file settle the
specification claims.
-/

namespace SCAPP

/-- Country-name mapping table.  Verbatim the `name_mappings` dictionary of
`RAIVCalculator.normalize_country_names` (src/raiv_calculation_model.py lines
138-165) and `SimpleRAIVCalculator.__init__` (src/raiv_calculation_simple.py
lines 32-59); the two files contain the identical 26-entry table. -/
def nameMappings : List (String × String) := [
  ("France+Monac", "France"),
  ("Switz.Leicht", "Switzerland"),
  ("Korea Rep.", "South Korea"),
  ("Norway,Sb,JM", "Norway"),
  ("Ireland", "Republic of Ireland"),
  ("Luxemberg", "Luxembourg"),
  ("Czech Rep", "Czech Republic"),
  ("Viet Nam", "Vietnam"),
  ("TFYR Macedna", "North Macedonia"),
  ("Bosnia Herzg", "Bosnia and Herzegovina"),
  ("Antigua,Barb", "Antigua and Barbuda"),
  ("Solomon Is", "Solomon Islands"),
  ("Bahamas", "Bahamas, The"),
  ("Papua N.Guin", "Papua New Guinea"),
  ("Dem.Rp.Congo", "Democratic Republic of the Congo"),
  ("Dominican Rp", "Dominican Republic"),
  ("GuineaBissau", "Guinea-Bissau"),
  ("Russian Fed", "Russia"),
  ("Rep.Moldova", "Moldova"),
  ("Trinidad Tbg", "Trinidad and Tobago"),
  ("Lao P.Dem.R", "Laos"),
  ("Gambia", "The Gambia"),
  ("Iran-Islam.R", "Iran"),
  ("Kyrgyzstan", "Kyrgyz Republic"),
  ("Venezuela", "Venezuela, RB"),
  ("Yemen", "Yemen, Rep.")]

/-- Dictionary lookup with default, `self.name_mappings.get(country, country)`
(src/raiv_calculation_simple.py line 63).  `df.replace(name_mappings)` in the
dataframe pipeline (src/raiv_calculation_model.py line 168) applies the same
function to every country cell. -/
def normalizeCountryName (s : String) : String :=
  match nameMappings.find? (fun p => p.1 = s) with
  | some p => p.2
  | none => s

/-- Database snapshot: the three queryable sources.  `importRows year` are the
raw `(PartnerName, TradeValuein1000USD)` rows of `Cleaned_Imports_{year}`;
`lpiRows` the `(Economy, TimelinessScore)` rows of `LPI_2023_only` whose score
is non-null; `riskRows` the `(Economy, RiskPremium)` rows of
`Risk_Premium_Lookup` with non-null premium (null rows are excluded by the
`WHERE ... IS NOT NULL` clauses, so they simply do not appear here). -/
structure TradeDb where
  importRows : ℕ → List (String × ℚ)
  lpiRows : List (String × ℚ)
  riskRows : List (String × ℚ)

/-- The import SQL query shared by both pipelines (src/raiv_calculation_model.py
lines 60-67, src/raiv_calculation_simple.py lines 68-75): drop the aggregate
`World` row, group by the raw `PartnerName`, and sum `TradeValuein1000USD`
within each group.  One output row per distinct raw partner name. -/
def sqlImportAgg (rows : List (String × ℚ)) : List (String × ℚ) :=
  let kept := rows.filter (fun p => p.1 ≠ "World")
  ((kept.map Prod.fst).dedup).map
    (fun n => (n, ((kept.filter (fun p => p.1 = n)).map Prod.snd).sum))

/-- Year-to-exponent table `t_values = {2022: 0, 2023: 1, 2024: 2}`
(src/raiv_calculation_model.py line 183, src/raiv_calculation_simple.py
line 133). -/
def tValueOfYear (year : ℕ) : Option ℕ :=
  if year = 2022 then some 0
  else if year = 2023 then some 1
  else if year = 2024 then some 2
  else none

/-- The RAIV formula `ImportValue * TimelinessScore / (1 + RiskPremium) ** t`
(src/raiv_calculation_model.py lines 208-212, src/raiv_calculation_simple.py
line 151). -/
def raivFormula (iv ts rp : ℚ) (t : ℕ) : ℚ := iv * ts / (1 + rp) ^ t

/-- One output row of either pipeline: the columns
`Country, Year, ImportValue, TimelinessScore, RiskPremium, t_value, RAIV`. -/
structure RaivRecord where
  country : String
  year : ℕ
  importValue : ℚ
  timelinessScore : ℚ
  riskPremium : ℚ
  tValue : ℕ
  raiv : ℚ
deriving DecidableEq, Repr

/-- Record constructor used by the dataframe pipeline, whose `RAIV` column is
computed by the vectorised formula. -/
def mkRaivRecord (year t : ℕ) (c : String) (iv ts rp : ℚ) : RaivRecord :=
  { country := c, year := year, importValue := iv, timelinessScore := ts,
    riskPremium := rp, tValue := t, raiv := raivFormula iv ts rp t }

/-- Table with country names replaced by canonical ones:
`normalize_country_names` applied to a fetched dataframe
(src/raiv_calculation_model.py lines 123-170). -/
def normalizeTable (t : List (String × ℚ)) : List (String × ℚ) :=
  t.map (fun p => (normalizeCountryName p.1, p.2))

/-- `RAIVCalculator.get_import_data` (src/raiv_calculation_model.py lines
49-75): runs the grouping SQL; country names are still raw here. -/
def RAIVCalculator.getImportData (db : TradeDb) (year : ℕ) : List (String × ℚ) :=
  sqlImportAgg (db.importRows year)

/-- `RAIVCalculator.calculate_raiv_for_year` (src/raiv_calculation_model.py
lines 172-224): fetch the three tables, return an empty frame if any is empty,
normalize all three, inner-merge on `Country` twice (pandas inner merge keeps
left-row order and pairs every matching right row), then compute the `RAIV`
column.  The `ValueError` branch models line 186; numpy division never raises,
so for valid years this function always returns `.ok`. -/
def RAIVCalculator.calculateRaivForYear (db : TradeDb) (year : ℕ) :
    Except String (List RaivRecord) :=
  match tValueOfYear year with
  | none => .error "ValueError"
  | some t =>
    let importDf := RAIVCalculator.getImportData db year
    let lpiDf := db.lpiRows
    let riskDf := db.riskRows
    if importDf.isEmpty || lpiDf.isEmpty || riskDf.isEmpty then .ok []
    else
      let importN := normalizeTable importDf
      let lpiN := normalizeTable lpiDf
      let riskN := normalizeTable riskDf
      let merged1 := importN.flatMap
        (fun p => ((lpiN.filter (fun q => q.1 = p.1)).map (fun q => (p.1, p.2, q.2))))
      let merged2 := merged1.flatMap
        (fun x => ((riskN.filter (fun q => q.1 = x.1)).map (fun q => (x.1, x.2.1, x.2.2, q.2))))
      .ok (merged2.map (fun x => mkRaivRecord year t x.1 x.2.1 x.2.2.1 x.2.2.2))

/-- Insertion step of a sort parameterised by a boolean comparison. -/
def insertLe {α : Type} (le : α → α → Bool) (x : α) : List α → List α
  | [] => [x]
  | y :: ys => if le x y then x :: y :: ys else y :: insertLe le x ys

/-- Sorting by a boolean comparison (models `sort_values` / `list.sort`; only
the resulting order matters, not the algorithm). -/
def sortByLe {α : Type} (le : α → α → Bool) (l : List α) : List α :=
  l.foldr (insertLe le) []

/-- Ordering on result records by `(Country, Year)` ascending, the sort key of
both pipelines (src/raiv_calculation_model.py line 252,
src/raiv_calculation_simple.py line 178). -/
def recordLe (a b : RaivRecord) : Bool :=
  if a.country = b.country then a.year ≤ b.year else a.country < b.country

/-- Final sort of the combined results by `(Country, Year)`. -/
def sortRecords (l : List RaivRecord) : List RaivRecord :=
  sortByLe recordLe l

/-- The `for year in [2022, 2023, 2024]: try ... except: continue` loop shared
by both `calculate_raiv_all_years` implementations
(src/raiv_calculation_model.py lines 233-242, src/raiv_calculation_simple.py
lines 168-175): a year whose computation raises contributes nothing; the loop
continues with the next year.  (The dataframe version also skips appending
empty frames, which changes nothing about the concatenated rows.) -/
def allYearsLoop (f : ℕ → Except String (List RaivRecord)) : List RaivRecord :=
  [2022, 2023, 2024].foldl
    (fun acc y => match f y with | .ok rs => acc ++ rs | .error _ => acc) []

/-- `RAIVCalculator.calculate_raiv_all_years` (src/raiv_calculation_model.py
lines 226-256): concatenate the per-year frames and sort by
`['Country', 'Year']`. -/
def RAIVCalculator.calculateRaivAllYears (db : TradeDb) : List RaivRecord :=
  sortRecords (allYearsLoop (RAIVCalculator.calculateRaivForYear db))

/-- One step of building a Python dict: assignment `d[k] = v` keeps the
original position of an existing key and updates its value, otherwise appends
the new key at the end. -/
def dictInsert (d : List (String × ℚ)) (k : String) (v : ℚ) : List (String × ℚ) :=
  if d.any (fun p => p.1 = k) then d.map (fun p => if p.1 = k then (k, v) else p)
  else d ++ [(k, v)]

/-- The fetch loops of `SimpleRAIVCalculator.get_import_data` /
`get_lpi_data` / `get_risk_premium_data` (src/raiv_calculation_simple.py lines
80-84, 101-104, 122-125): `data[normalize_country_name(row_country)] = value`
for each fetched row — a later row whose name normalizes to an existing key
overwrites the stored value. -/
def buildDict (rows : List (String × ℚ)) : List (String × ℚ) :=
  rows.foldl (fun d p => dictInsert d (normalizeCountryName p.1) p.2) []

/-- Python `dict` membership/read: the value stored at key `k`, if any. -/
def dictLookup (d : List (String × ℚ)) (k : String) : Option ℚ :=
  (d.find? (fun p => p.1 = k)).map Prod.snd

/-- `SimpleRAIVCalculator.get_import_data` (src/raiv_calculation_simple.py
lines 65-86): same SQL as the dataframe pipeline, then the dict-building
fetch loop with normalization. -/
def SimpleRAIVCalculator.getImportData (db : TradeDb) (year : ℕ) : List (String × ℚ) :=
  buildDict (sqlImportAgg (db.importRows year))

/-- `SimpleRAIVCalculator.get_lpi_data` (src/raiv_calculation_simple.py lines
88-107). -/
def SimpleRAIVCalculator.getLpiData (db : TradeDb) : List (String × ℚ) :=
  buildDict db.lpiRows

/-- `SimpleRAIVCalculator.get_risk_premium_data` (src/raiv_calculation_simple.py
lines 109-128). -/
def SimpleRAIVCalculator.getRiskPremiumData (db : TradeDb) : List (String × ℚ) :=
  buildDict db.riskRows

/-- The per-record arithmetic of src/raiv_calculation_simple.py line 151:
`(import_value * timeliness_score) / math.pow(1 + risk_premium, t)`.  Python
float division by zero raises `ZeroDivisionError`; `math.pow(0.0, 0) = 1.0`,
so the divisor is zero exactly when `(1 + rp) ^ t = 0`. -/
def computeRaiv (iv ts rp : ℚ) (t : ℕ) : Except String ℚ :=
  if (1 + rp) ^ t = 0 then .error "ZeroDivisionError"
  else .ok (iv * ts / (1 + rp) ^ t)

/-- The `for country in import_data:` loop of
`SimpleRAIVCalculator.calculate_raiv_for_year` (src/raiv_calculation_simple.py
lines 142-161): countries found in all three dicts get a result row, in import
order; a `ZeroDivisionError` aborts the whole year (the partial `results` list
is discarded by the caller's `except`). -/
def simpleYearLoop (lpiData riskData : List (String × ℚ)) (year t : ℕ) :
    List (String × ℚ) → Except String (List RaivRecord)
  | [] => .ok []
  | p :: rest =>
    match dictLookup lpiData p.1, dictLookup riskData p.1 with
    | some ts, some rp =>
      match computeRaiv p.2 ts rp t with
      | .error e => .error e
      | .ok raiv =>
        (simpleYearLoop lpiData riskData year t rest).map
          (fun rs =>
            { country := p.1, year := year, importValue := p.2, timelinessScore := ts,
              riskPremium := rp, tValue := t, raiv := raiv } :: rs)
    | _, _ => simpleYearLoop lpiData riskData year t rest

/-- `SimpleRAIVCalculator.calculate_raiv_for_year` (src/raiv_calculation_simple.py
lines 130-164).  `t_values[year]` raises `KeyError` on an invalid year. -/
def SimpleRAIVCalculator.calculateRaivForYear (db : TradeDb) (year : ℕ) :
    Except String (List RaivRecord) :=
  match tValueOfYear year with
  | none => .error "KeyError"
  | some t =>
    simpleYearLoop (SimpleRAIVCalculator.getLpiData db)
      (SimpleRAIVCalculator.getRiskPremiumData db) year t
      (SimpleRAIVCalculator.getImportData db year)

/-- `SimpleRAIVCalculator.calculate_raiv_all_years`
(src/raiv_calculation_simple.py lines 166-181): same loop and the same
`(Country, Year)` sort key. -/
def SimpleRAIVCalculator.calculateRaivAllYears (db : TradeDb) : List RaivRecord :=
  sortRecords (allYearsLoop (SimpleRAIVCalculator.calculateRaivForYear db))

/-- Comparison used when sorting a list of rationals. -/
def qLe (a b : ℚ) : Bool := a ≤ b

/-- Arithmetic mean `sum(xs) / len(xs)`. -/
def listMean (xs : List ℚ) : ℚ := xs.sum / (xs.length : ℚ)

/-- Median as computed by src/raiv_calculation_simple.py lines 262-264 (and by
the pandas `median` aggregation): middle element of the sorted values for odd
length, average of the two middle elements for even length. -/
def listMedian (xs : List ℚ) : ℚ :=
  let s := sortByLe qLe xs
  let n := s.length
  if n % 2 = 1 then s.getD (n / 2) 0
  else (s.getD (n / 2 - 1) 0 + s.getD (n / 2) 0) / 2

/-- Python `min` over a non-empty list (0 as a dummy for the empty list, which
the aggregators never hit because groups are non-empty). -/
def listMin (xs : List ℚ) : ℚ :=
  match xs with
  | [] => 0
  | h :: t => t.foldl min h

/-- Python `max` over a non-empty list. -/
def listMax (xs : List ℚ) : ℚ :=
  match xs with
  | [] => 0
  | h :: t => t.foldl max h

/-- Population variance, raiv_var of src/raiv_calculation_simple.py line 267:
`sum((x - mean) ** 2 for x in values) / len(values)`.  The code stores
`math.sqrt` of this as the standard deviation. -/
def popVariance (xs : List ℚ) : ℚ :=
  ((xs.map (fun x => (x - listMean xs) ^ 2)).sum) / (xs.length : ℚ)

/-- Sample variance: the square of the pandas `std` aggregation, which uses
`ddof = 1`, i.e. `sum((x - mean) ** 2) / (len - 1)`.  (For a one-element group
the true pandas result is NaN; here the `ℚ` convention gives 0.) -/
def sampleVariance (xs : List ℚ) : ℚ :=
  ((xs.map (fun x => (x - listMean xs) ^ 2)).sum) / ((xs.length : ℚ) - 1)

/-- Distinct years of a result set in ascending order: `sorted(year_groups.keys())`
in the simple pipeline, and the sorted group keys of the pandas `groupby`. -/
def yearsOf (results : List RaivRecord) : List ℕ :=
  sortByLe (fun a b => a ≤ b) ((results.map RaivRecord.year).dedup)

/-- One per-year row of `SimpleRAIVCalculator.generate_summary_statistics`.
`raivVariance` is the square of the reported `RAIV_Std`.  The Python code
rounds every field to 4 decimals for display/export; the unrounded group
values are kept here (spec section 4.4 says the unrounded values are the ones
composed further). -/
structure SimpleSummary where
  year : ℕ
  count : ℕ
  raivMean : ℚ
  raivMedian : ℚ
  raivVariance : ℚ
  raivMin : ℚ
  raivMax : ℚ
  importValueMean : ℚ
  timelinessScoreMean : ℚ
  riskPremiumMean : ℚ
deriving DecidableEq, Repr

/-- `SimpleRAIVCalculator.generate_summary_statistics`
(src/raiv_calculation_simple.py lines 238-283): group by year, then count,
mean, median, population standard deviation, min, max of RAIV and the means of
the three input factors. -/
def SimpleRAIVCalculator.generateSummaryStatistics (results : List RaivRecord) :
    List SimpleSummary :=
  (yearsOf results).map (fun y =>
    let g := results.filter (fun r => r.year = y)
    let raivs := g.map RaivRecord.raiv
    { year := y, count := g.length,
      raivMean := listMean raivs, raivMedian := listMedian raivs,
      raivVariance := popVariance raivs,
      raivMin := listMin raivs, raivMax := listMax raivs,
      importValueMean := listMean (g.map RaivRecord.importValue),
      timelinessScoreMean := listMean (g.map RaivRecord.timelinessScore),
      riskPremiumMean := listMean (g.map RaivRecord.riskPremium) })

/-- One per-year row of `RAIVCalculator.generate_summary_statistics`.
`raivVariance` is the square of the reported `RAIV_std` (pandas sample
standard deviation); the pandas version also reports the medians of the three
input factors.  As above, fields are the unrounded group values. -/
structure PandasSummary where
  year : ℕ
  raivCount : ℕ
  raivMean : ℚ
  raivMedian : ℚ
  raivVariance : ℚ
  raivMin : ℚ
  raivMax : ℚ
  importValueMean : ℚ
  importValueMedian : ℚ
  timelinessScoreMean : ℚ
  timelinessScoreMedian : ℚ
  riskPremiumMean : ℚ
  riskPremiumMedian : ℚ
deriving DecidableEq, Repr

/-- `RAIVCalculator.generate_summary_statistics`
(src/raiv_calculation_model.py lines 286-310): `groupby('Year').agg` with
count, mean, median, std (pandas default `ddof = 1`), min, max of RAIV and
mean/median of the three factors. -/
def RAIVCalculator.generateSummaryStatistics (results : List RaivRecord) :
    List PandasSummary :=
  (yearsOf results).map (fun y =>
    let g := results.filter (fun r => r.year = y)
    let raivs := g.map RaivRecord.raiv
    { year := y, raivCount := g.length,
      raivMean := listMean raivs, raivMedian := listMedian raivs,
      raivVariance := sampleVariance raivs,
      raivMin := listMin raivs, raivMax := listMax raivs,
      importValueMean := listMean (g.map RaivRecord.importValue),
      importValueMedian := listMedian (g.map RaivRecord.importValue),
      timelinessScoreMean := listMean (g.map RaivRecord.timelinessScore),
      timelinessScoreMedian := listMedian (g.map RaivRecord.timelinessScore),
      riskPremiumMean := listMean (g.map RaivRecord.riskPremium),
      riskPremiumMedian := listMedian (g.map RaivRecord.riskPremium) })

/-- Weight normalization shared verbatim by both explorer scripts
(src/recommendations_app.py lines 42-49, src/visualizations/recommendations_app.py
lines 34-41): if the three slider weights sum to zero the script shows an
error and stops (`st.stop()`, modelled as `none`); otherwise each weight is
divided by the total. -/
def normalizeWeights (wr wt wk : ℚ) : Option (ℚ × ℚ × ℚ) :=
  let total := wr + wt + wk
  if total = 0 then none else some (wr / total, wt / total, wk / total)

/-- One row of the explorer input table `adjusted_RM_raiv_no_china.csv` as the
visualizations-variant script uses it. -/
structure VizRow where
  partnerName : String
  year : ℕ
  raiv : ℚ
  timelinessScore : ℚ
  riskScore : ℚ
deriving DecidableEq, Repr

/-- The `raiv_df` dataframe of src/visualizations/recommendations_app.py: its
loaded rows and, once the script body has assigned it, the `CompositeScore`
column (`none` right after `load_data()`). -/
structure VizDf where
  rows : List VizRow
  compositeCol : Option (List ℚ)
deriving DecidableEq, Repr

/-- The `CompositeScore` column of src/visualizations/recommendations_app.py
lines 44-48: `w_raiv * RAIV + w_time * TimelinessScore + w_risk * (1 - RiskScore)`
per row. -/
def vizCompositeColumn (rows : List VizRow) (w1 w2 w3 : ℚ) : List ℚ :=
  rows.map (fun r => w1 * r.raiv + w2 * r.timelinessScore + w3 * (1 - r.riskScore))

/-- One run of the src/visualizations/recommendations_app.py script body on the
session state: normalize the weights (stopping on zero total), assign the
`CompositeScore` column on `raiv_df` itself (line 44 writes into the loaded
table), sort descending by the score and display the top rows.  Returns the
final state of `raiv_df` together with the displayed table. -/
def vizAppRun (df : VizDf) (wr wt wk : ℚ) (topN : ℕ) :
    VizDf × Option (List (VizRow × ℚ)) :=
  match normalizeWeights wr wt wk with
  | none => (df, none)
  | some (w1, w2, w3) =>
    let col := vizCompositeColumn df.rows w1 w2 w3
    let dfMut : VizDf := { rows := df.rows, compositeCol := some col }
    let ranked := sortByLe (fun a b => b.2 ≤ a.2) (df.rows.zip col)
    (dfMut, some (ranked.take topN))

/-- One row of the explorer input table as the main script
src/recommendations_app.py uses it (with the `HS Code` column). -/
structure MainRow where
  partnerName : String
  hsCode : ℕ
  year : ℕ
  raiv : ℚ
  timelinessScore : ℚ
  riskScore : ℚ
deriving DecidableEq, Repr

/-- Comparison used when sorting country names (pandas `groupby` emits its
groups with sorted keys). -/
def strLe (a b : String) : Bool := a ≤ b

/-- The `groupby('PartnerName').agg` step of src/recommendations_app.py lines
58-62: per country, sum of RAIV and means of TimelinessScore and RiskScore. -/
def mainAggregate (filtered : List MainRow) : List (String × ℚ × ℚ × ℚ) :=
  let names := sortByLe strLe ((filtered.map MainRow.partnerName).dedup)
  names.map (fun c =>
    let g := filtered.filter (fun r => r.partnerName = c)
    (c, (g.map MainRow.raiv).sum,
      listMean (g.map MainRow.timelinessScore),
      listMean (g.map MainRow.riskScore)))

/-- One run of the src/recommendations_app.py script body: normalize weights
(stop on zero total), filter the loaded table by HS-code and year selections
into the new table `filtered_df` (a `.copy()`), aggregate per country into the
new table `aggregated_df`, min-max-normalize RAIV and Risk, score, rank
descending and take the top rows.  The loaded `raiv_df` is never written to;
the returned first component is the final value of that binding. -/
def mainAppRun (df : List MainRow) (wr wt wk : ℚ) (hsSel yearSel : List ℕ)
    (topN : ℕ) : List MainRow × Option (List (String × ℚ × ℚ × ℚ × ℚ)) :=
  match normalizeWeights wr wt wk with
  | none => (df, none)
  | some (w1, w2, w3) =>
    let filtered := df.filter (fun r => decide (r.hsCode ∈ hsSel) && decide (r.year ∈ yearSel))
    let agg := mainAggregate filtered
    let maxRaiv := if agg.isEmpty then 1 else listMax (agg.map (fun x => x.2.1))
    let maxRisk := if agg.isEmpty then 1 else listMax (agg.map (fun x => x.2.2.2))
    let scored := agg.map (fun x =>
      (x.1, x.2.1, x.2.2.1, x.2.2.2,
        (x.2.1 / maxRaiv) * w1 + (x.2.2.1 / 5) * w2 + (1 - x.2.2.2 / maxRisk) * w3))
    let ranked := sortByLe (fun a b => b.2.2.2.2 ≤ a.2.2.2.2) scored
    (df, some (ranked.take topN))

/-! ## Supporting lemmas -/

theorem insertLe_perm {α : Type} (le : α → α → Bool) (x : α) (l : List α) :
    (insertLe le x l).Perm (x :: l) := by
  induction l with
  | nil => exact List.Perm.refl _
  | cons y ys ih =>
    rw [insertLe]
    split
    · exact List.Perm.refl _
    · exact (ih.cons y).trans (List.Perm.swap x y ys)

theorem sortByLe_perm {α : Type} (le : α → α → Bool) (l : List α) :
    (sortByLe le l).Perm l := by
  induction l with
  | nil => exact List.Perm.refl _
  | cons y ys ih =>
    exact (insertLe_perm le y (sortByLe le ys)).trans (ih.cons y)

theorem mem_sortByLe {α : Type} {le : α → α → Bool} {l : List α} {x : α} :
    x ∈ sortByLe le l ↔ x ∈ l :=
  (sortByLe_perm le l).mem_iff

/-- Value of a per-year result as seen by the `try ... except ... continue`
loop: its rows on success, nothing on a raised exception. -/
def okList (e : Except String (List RaivRecord)) : List RaivRecord :=
  match e with
  | .ok rs => rs
  | .error _ => []

theorem allYearsLoop_eq (f : ℕ → Except String (List RaivRecord)) :
    allYearsLoop f = (okList (f 2022) ++ okList (f 2023)) ++ okList (f 2024) := by
  have step : ∀ (acc : List RaivRecord) (y : ℕ),
      (match f y with | .ok rs => acc ++ rs | .error _ => acc) = acc ++ okList (f y) := by
    intro acc y
    cases f y <;> simp [okList]
  simp only [allYearsLoop, List.foldl_cons, List.foldl_nil, step, List.nil_append]

theorem mem_allYears_of_ok {f : ℕ → Except String (List RaivRecord)} {y : ℕ}
    {rs : List RaivRecord} {r : RaivRecord} (hy : y ∈ [2022, 2023, 2024])
    (hok : f y = .ok rs) (hr : r ∈ rs) : r ∈ sortRecords (allYearsLoop f) := by
  rw [sortRecords, mem_sortByLe, allYearsLoop_eq]
  have hy' : y = 2022 ∨ y = 2023 ∨ y = 2024 := by simpa using hy
  rcases hy' with h | h | h <;> subst h <;>
    simp [hok, okList, hr]

theorem computeRaiv_ok {iv ts rp : ℚ} {t : ℕ} {v : ℚ}
    (h : computeRaiv iv ts rp t = .ok v) : v = raivFormula iv ts rp t := by
  rw [computeRaiv] at h
  split at h
  · exact absurd h (by simp)
  · rw [raivFormula]
    exact (Except.ok.injEq _ _ ▸ h).symm

theorem simpleYearLoop_mem {lpi risk : List (String × ℚ)} {year t : ℕ}
    {l : List (String × ℚ)} {rs : List RaivRecord}
    (h : simpleYearLoop lpi risk year t l = .ok rs) :
    ∀ r ∈ rs, ∃ p ∈ l, ∃ ts rp, dictLookup lpi p.1 = some ts ∧
      dictLookup risk p.1 = some rp ∧ r = mkRaivRecord year t p.1 p.2 ts rp := by
  induction l generalizing rs with
  | nil =>
    rw [simpleYearLoop] at h
    cases h
    intro r hr
    cases hr
  | cons p rest ih =>
    cases hlp : dictLookup lpi p.1 with
    | none =>
      simp only [simpleYearLoop, hlp] at h
      intro r hr
      obtain ⟨q, hq, hrest⟩ := ih h r hr
      exact ⟨q, List.mem_cons_of_mem _ hq, hrest⟩
    | some ts =>
      cases hrk : dictLookup risk p.1 with
      | none =>
        simp only [simpleYearLoop, hlp, hrk] at h
        intro r hr
        obtain ⟨q, hq, hrest⟩ := ih h r hr
        exact ⟨q, List.mem_cons_of_mem _ hq, hrest⟩
      | some rp =>
        simp only [simpleYearLoop, hlp, hrk] at h
        cases hcr : computeRaiv p.2 ts rp t with
        | error e => rw [hcr] at h; cases h
        | ok v =>
          rw [hcr] at h
          cases hrest : simpleYearLoop lpi risk year t rest with
          | error e => rw [hrest] at h; simp [Except.map] at h
          | ok rs' =>
            rw [hrest] at h
            simp only [Except.map, Except.ok.injEq] at h
            intro r hr
            rw [← h] at hr
            rcases List.mem_cons.mp hr with h1 | h1
            · refine ⟨p, List.mem_cons_self _ _, ts, rp, hlp, hrk, ?_⟩
              rw [h1, mkRaivRecord, computeRaiv_ok hcr]
            · obtain ⟨q, hq, hqrest⟩ := ih hrest r h1
              exact ⟨q, List.mem_cons_of_mem _ hq, hqrest⟩

theorem simpleYearLoop_ok {lpi risk : List (String × ℚ)} {year t : ℕ}
    {l : List (String × ℚ)}
    (h : ∀ p ∈ l, ∀ ts rp : ℚ, dictLookup lpi p.1 = some ts →
      dictLookup risk p.1 = some rp → (1 + rp) ^ t ≠ 0) :
    simpleYearLoop lpi risk year t l = .ok (l.filterMap (fun p =>
      match dictLookup lpi p.1, dictLookup risk p.1 with
      | some ts, some rp => some (mkRaivRecord year t p.1 p.2 ts rp)
      | _, _ => none)) := by
  induction l with
  | nil => rfl
  | cons p rest ih =>
    have hrest := ih (fun q hq => h q (List.mem_cons_of_mem _ hq))
    cases hlp : dictLookup lpi p.1 with
    | none => simp only [simpleYearLoop, List.filterMap_cons, hlp, hrest]
    | some ts =>
      cases hrk : dictLookup risk p.1 with
      | none => simp only [simpleYearLoop, List.filterMap_cons, hlp, hrk, hrest]
      | some rp =>
        have hnz : (1 + rp) ^ t ≠ 0 := h p (List.mem_cons_self _ _) ts rp hlp hrk
        simp only [simpleYearLoop, List.filterMap_cons, hlp, hrk, hrest]
        rw [computeRaiv, if_neg hnz]
        simp only [Except.map, Except.ok.injEq]
        rw [mkRaivRecord, raivFormula]

theorem simpleYearLoop_tzero (lpi risk : List (String × ℚ)) (year : ℕ)
    (l : List (String × ℚ)) :
    ∃ rs, simpleYearLoop lpi risk year 0 l = .ok rs :=
  ⟨_, simpleYearLoop_ok (fun _ _ _ rp _ _ => by simp)⟩

theorem normalizeTable_keys (l : List (String × ℚ)) :
    (normalizeTable l).map Prod.fst = l.map (fun p => normalizeCountryName p.1) := by
  simp [normalizeTable, List.map_map, Function.comp]

theorem dictInsert_keys (d : List (String × ℚ)) (k : String) (v : ℚ) :
    (dictInsert d k v).map Prod.fst =
      if d.any (fun p => p.1 = k) then d.map Prod.fst else d.map Prod.fst ++ [k] := by
  rw [dictInsert]
  split
  · rw [List.map_map]
    refine List.map_congr_left (fun p _ => ?_)
    by_cases hp : p.1 = k
    · simp [Function.comp, hp]
    · simp [Function.comp, hp]
  · simp

theorem dictLookup_mem_keys {d : List (String × ℚ)} {k : String} {v : ℚ}
    (h : dictLookup d k = some v) : k ∈ d.map Prod.fst := by
  rw [dictLookup] at h
  cases hf : d.find? (fun p => p.1 = k) with
  | none => rw [hf] at h; cases h
  | some q =>
    have hq : q ∈ d := List.mem_of_find?_eq_some hf
    have hk : q.1 = k := by simpa using List.find?_some hf
    exact hk ▸ List.mem_map_of_mem Prod.fst hq

theorem buildDict_keys_aux (rows : List (String × ℚ)) :
    ∀ acc : List (String × ℚ),
      ((rows.foldl (fun d p => dictInsert d (normalizeCountryName p.1) p.2) acc).map Prod.fst)
        ⊆ acc.map Prod.fst ++ rows.map (fun p => normalizeCountryName p.1) := by
  induction rows with
  | nil => intro acc; simp
  | cons p rest ih =>
    intro acc
    rw [List.foldl_cons]
    refine (ih (dictInsert acc (normalizeCountryName p.1) p.2)).trans ?_
    intro x hx
    rcases List.mem_append.mp hx with hx | hx
    · rw [dictInsert_keys] at hx
      split at hx
      · exact List.mem_append.mpr (Or.inl hx)
      · rcases List.mem_append.mp hx with hx | hx
        · exact List.mem_append.mpr (Or.inl hx)
        · simp only [List.mem_singleton] at hx
          subst hx
          simp
    · simp only [List.map_cons, List.mem_append, List.mem_cons]
      tauto

theorem buildDict_keys (rows : List (String × ℚ)) :
    (buildDict rows).map Prod.fst ⊆ rows.map (fun p => normalizeCountryName p.1) := by
  have := buildDict_keys_aux rows []
  simpa [buildDict] using this

theorem buildDict_aux (rows : List (String × ℚ)) :
    ∀ acc : List (String × ℚ),
      (acc.map Prod.fst ++ rows.map (fun p => normalizeCountryName p.1)).Nodup →
      rows.foldl (fun d p => dictInsert d (normalizeCountryName p.1) p.2) acc =
        acc ++ normalizeTable rows := by
  induction rows with
  | nil => intro acc _; simp [normalizeTable]
  | cons p rest ih =>
    intro acc hnd
    have hnotin : normalizeCountryName p.1 ∉ acc.map Prod.fst := by
      intro hmem
      have hdisj := List.disjoint_of_nodup_append hnd
      exact hdisj hmem (by simp)
    have hins : dictInsert acc (normalizeCountryName p.1) p.2 =
        acc ++ [(normalizeCountryName p.1, p.2)] := by
      rw [dictInsert, if_neg]
      simp only [List.any_eq_true, not_exists, not_and, decide_eq_true_eq]
      intro q hq
      intro hqk
      exact hnotin (hqk ▸ List.mem_map_of_mem Prod.fst hq)
    have hnd' : ((acc ++ [(normalizeCountryName p.1, p.2)]).map Prod.fst ++
        rest.map (fun p => normalizeCountryName p.1)).Nodup := by
      rw [List.map_append, List.append_assoc]
      simpa using hnd
    rw [List.foldl_cons, hins, ih _ hnd']
    simp [normalizeTable]

theorem buildDict_of_nodup {rows : List (String × ℚ)}
    (h : (rows.map (fun p => normalizeCountryName p.1)).Nodup) :
    buildDict rows = normalizeTable rows := by
  have := buildDict_aux rows [] (by simpa using h)
  simpa [buildDict] using this

theorem filter_eq_nil_of_notin_keys {l : List (String × ℚ)} {c : String}
    (h : c ∉ l.map Prod.fst) : l.filter (fun q => q.1 = c) = [] := by
  rw [List.filter_eq_nil_iff]
  intro q hq
  simp only [decide_eq_true_eq]
  intro hqc
  exact h (hqc ▸ List.mem_map_of_mem Prod.fst hq)

theorem lookup_filter_of_nodup {l : List (String × ℚ)}
    (hn : (l.map Prod.fst).Nodup) (c : String) :
    l.filter (fun q => q.1 = c) = ((dictLookup l c).map (fun v => (c, v))).toList := by
  induction l with
  | nil => rfl
  | cons q rest ih =>
    have hq1 : q.1 ∉ rest.map Prod.fst := by
      simp only [List.map_cons, List.nodup_cons] at hn
      exact hn.1
    have hrest : (rest.map Prod.fst).Nodup := by
      simp only [List.map_cons, List.nodup_cons] at hn
      exact hn.2
    by_cases hc : q.1 = c
    · subst hc
      rw [List.filter_cons_of_pos (by simp), filter_eq_nil_of_notin_keys hq1]
      rw [dictLookup, List.find?_cons_of_pos _ (by simp)]
      simp
    · rw [List.filter_cons_of_neg (by simpa using hc)]
      simp only [dictLookup] at ih ⊢
      rw [List.find?_cons_of_neg _ (by simpa using hc)]
      exact ih hrest

theorem flatMap_lookup {β γ : Type} {l : List (String × ℚ)}
    (hn : (l.map Prod.fst).Nodup) (xs : List β) (key : β → String)
    (g : β → (String × ℚ) → γ) :
    xs.flatMap (fun x => ((l.filter (fun q => q.1 = key x)).map (g x))) =
      xs.filterMap (fun x => (dictLookup l (key x)).map (fun v => g x (key x, v))) := by
  induction xs with
  | nil => rfl
  | cons x rest ih =>
    rw [List.flatMap_cons, List.filterMap_cons, lookup_filter_of_nodup hn, ih]
    cases dictLookup l (key x) with
    | none => simp
    | some v => simp

theorem pandasForYear_ok {db : TradeDb} {year t : ℕ}
    (ht : tValueOfYear year = some t)
    (h2 : (db.lpiRows.map (fun p => normalizeCountryName p.1)).Nodup)
    (h3 : (db.riskRows.map (fun p => normalizeCountryName p.1)).Nodup)
    (hne : ((RAIVCalculator.getImportData db year).isEmpty || db.lpiRows.isEmpty ||
      db.riskRows.isEmpty) = false) :
    RAIVCalculator.calculateRaivForYear db year =
      .ok ((normalizeTable (RAIVCalculator.getImportData db year)).filterMap (fun p =>
        match dictLookup (normalizeTable db.lpiRows) p.1,
          dictLookup (normalizeTable db.riskRows) p.1 with
        | some ts, some rp => some (mkRaivRecord year t p.1 p.2 ts rp)
        | _, _ => none)) := by
  have h2' : ((normalizeTable db.lpiRows).map Prod.fst).Nodup := by
    rw [normalizeTable_keys]; exact h2
  have h3' : ((normalizeTable db.riskRows).map Prod.fst).Nodup := by
    rw [normalizeTable_keys]; exact h3
  rw [RAIVCalculator.calculateRaivForYear, ht]
  simp only [hne, Bool.false_eq_true, if_false]
  rw [flatMap_lookup h2' _ Prod.fst (fun p q => (p.1, p.2, q.2))]
  rw [flatMap_lookup h3' _ (fun x : String × ℚ × ℚ => x.1)
    (fun (x : String × ℚ × ℚ) (q : String × ℚ) => (x.1, x.2.1, x.2.2, q.2))]
  rw [List.map_filterMap, List.filterMap_filterMap]
  refine congrArg Except.ok ?_
  refine congrArg (fun f => List.filterMap f
    (normalizeTable (RAIVCalculator.getImportData db year))) ?_
  funext p
  cases hl : dictLookup (normalizeTable db.lpiRows) p.1 with
  | none => rfl
  | some ts =>
    cases hr : dictLookup (normalizeTable db.riskRows) p.1 with
    | none => simp [hr]
    | some rp => simp [hr, mkRaivRecord]

theorem pandasForYear_fields {db : TradeDb} {year t : ℕ} {rs : List RaivRecord}
    (ht : tValueOfYear year = some t)
    (h : RAIVCalculator.calculateRaivForYear db year = .ok rs) :
    ∀ r ∈ rs, r.year = year ∧ r.tValue = t ∧
      r.raiv = raivFormula r.importValue r.timelinessScore r.riskPremium t ∧
      r.country ∈ (normalizeTable (RAIVCalculator.getImportData db year)).map Prod.fst ∧
      r.country ∈ (normalizeTable db.lpiRows).map Prod.fst ∧
      r.country ∈ (normalizeTable db.riskRows).map Prod.fst := by
  rw [RAIVCalculator.calculateRaivForYear, ht] at h
  split at h
  · exact absurd h (by simp)
  · rename_i t' heq
    injection heq with heq'
    subst heq'
    dsimp only at h
    split at h
    · simp only [Except.ok.injEq] at h
      subst h
      intro r hr
      cases hr
    · simp only [Except.ok.injEq] at h
      subst h
      intro r hr
      obtain ⟨x, hx, hxr⟩ := List.mem_map.mp hr
      obtain ⟨x1, hx1, hx2⟩ := List.mem_flatMap.mp hx
      obtain ⟨q, hq, hqx⟩ := List.mem_map.mp hx2
      obtain ⟨p, hp, hp2⟩ := List.mem_flatMap.mp hx1
      obtain ⟨q', hq', hq'x⟩ := List.mem_map.mp hp2
      obtain ⟨hqmem, hqkey⟩ := List.mem_filter.mp hq
      obtain ⟨hq'mem, hq'key⟩ := List.mem_filter.mp hq'
      subst hxr
      subst hqx
      subst hq'x
      simp only [decide_eq_true_eq] at hqkey hq'key
      refine ⟨rfl, rfl, rfl, ?_, ?_, ?_⟩
      · exact List.mem_map_of_mem Prod.fst hp
      · exact hq'key ▸ List.mem_map_of_mem Prod.fst hq'mem
      · exact hqkey ▸ List.mem_map_of_mem Prod.fst hqmem

theorem dictLookup_some_mem {d : List (String × ℚ)} {k : String} {v : ℚ}
    (h : dictLookup d k = some v) : (k, v) ∈ d := by
  rw [dictLookup] at h
  cases hf : d.find? (fun p => p.1 = k) with
  | none => rw [hf] at h; cases h
  | some q =>
    rw [hf] at h
    simp only [Option.map_some', Option.some.injEq] at h
    have hk : q.1 = k := by simpa using List.find?_some hf
    have hq := List.mem_of_find?_eq_some hf
    have : q = (k, v) := by
      rw [← hk, ← h]
    exact this ▸ hq

theorem simpleYearLoop_skip {lpi risk : List (String × ℚ)} {year t : ℕ}
    {l : List (String × ℚ)}
    (h : ∀ p ∈ l, dictLookup lpi p.1 = none ∨ dictLookup risk p.1 = none) :
    simpleYearLoop lpi risk year t l = .ok [] := by
  induction l with
  | nil => rfl
  | cons p rest ih =>
    have hrest := ih (fun q hq => h q (List.mem_cons_of_mem _ hq))
    rcases h p (List.mem_cons_self _ _) with hp | hp
    · simp only [simpleYearLoop, hp, hrest]
    · cases hlp : dictLookup lpi p.1 with
      | none => simp only [simpleYearLoop, hlp, hrest]
      | some ts => simp only [simpleYearLoop, hlp, hp, hrest]

theorem simpleForYear_eq_pandas {db : TradeDb} {year t : ℕ}
    (ht : tValueOfYear year = some t)
    (h1 : ((sqlImportAgg (db.importRows year)).map (fun p => normalizeCountryName p.1)).Nodup)
    (h2 : (db.lpiRows.map (fun p => normalizeCountryName p.1)).Nodup)
    (h3 : (db.riskRows.map (fun p => normalizeCountryName p.1)).Nodup)
    (h4 : ∀ p ∈ db.riskRows, 1 + p.2 ≠ 0) :
    SimpleRAIVCalculator.calculateRaivForYear db year =
      RAIVCalculator.calculateRaivForYear db year := by
  have ei : SimpleRAIVCalculator.getImportData db year =
      normalizeTable (RAIVCalculator.getImportData db year) :=
    buildDict_of_nodup h1
  have el : SimpleRAIVCalculator.getLpiData db = normalizeTable db.lpiRows :=
    buildDict_of_nodup h2
  have er : SimpleRAIVCalculator.getRiskPremiumData db = normalizeTable db.riskRows :=
    buildDict_of_nodup h3
  by_cases hemp : ((RAIVCalculator.getImportData db year).isEmpty ||
      db.lpiRows.isEmpty || db.riskRows.isEmpty) = true
  · have hpan : RAIVCalculator.calculateRaivForYear db year = .ok [] := by
      rw [RAIVCalculator.calculateRaivForYear, ht]
      dsimp only
      rw [if_pos hemp]
    rw [hpan, SimpleRAIVCalculator.calculateRaivForYear, ht]
    simp only [Bool.or_eq_true, List.isEmpty_iff] at hemp
    rcases hemp with (hi | hl) | hr
    · rw [ei, hi]
      rfl
    · rw [el, hl]
      exact simpleYearLoop_skip (fun p _ => Or.inl rfl)
    · rw [er, hr]
      exact simpleYearLoop_skip (fun p _ => Or.inr rfl)
  · have hne : ((RAIVCalculator.getImportData db year).isEmpty ||
        db.lpiRows.isEmpty || db.riskRows.isEmpty) = false := by
      simpa using hemp
    have hdiv : ∀ p ∈ normalizeTable (RAIVCalculator.getImportData db year),
        ∀ ts rp : ℚ, dictLookup (normalizeTable db.lpiRows) p.1 = some ts →
        dictLookup (normalizeTable db.riskRows) p.1 = some rp → (1 + rp) ^ t ≠ 0 := by
      intro p _ ts rp _ hrk
      have hmem := dictLookup_some_mem hrk
      obtain ⟨q0, hq0, hq0e⟩ := List.mem_map.mp hmem
      have : rp = q0.2 := by
        have := congrArg Prod.snd hq0e
        simpa using this.symm
      exact this ▸ pow_ne_zero t (h4 q0 hq0)
    rw [pandasForYear_ok ht h2 h3 hne]
    rw [SimpleRAIVCalculator.calculateRaivForYear, ht, ei, el, er]
    exact simpleYearLoop_ok hdiv

theorem pipelines_equal {db : TradeDb}
    (h1 : ∀ y ∈ [2022, 2023, 2024],
      ((sqlImportAgg (db.importRows y)).map (fun p => normalizeCountryName p.1)).Nodup)
    (h2 : (db.lpiRows.map (fun p => normalizeCountryName p.1)).Nodup)
    (h3 : (db.riskRows.map (fun p => normalizeCountryName p.1)).Nodup)
    (h4 : ∀ p ∈ db.riskRows, 1 + p.2 ≠ 0) :
    SimpleRAIVCalculator.calculateRaivAllYears db =
      RAIVCalculator.calculateRaivAllYears db ∧
    ∀ y ∈ [2022, 2023, 2024],
      SimpleRAIVCalculator.calculateRaivForYear db y =
        RAIVCalculator.calculateRaivForYear db y := by
  have hy : ∀ y ∈ [2022, 2023, 2024],
      SimpleRAIVCalculator.calculateRaivForYear db y =
        RAIVCalculator.calculateRaivForYear db y := by
    intro y hy
    have hy' : y = 2022 ∨ y = 2023 ∨ y = 2024 := by simpa using hy
    rcases hy' with h | h | h <;> subst h <;>
      exact simpleForYear_eq_pandas rfl (h1 _ (by simp)) h2 h3 h4
  refine ⟨?_, hy⟩
  rw [SimpleRAIVCalculator.calculateRaivAllYears, RAIVCalculator.calculateRaivAllYears,
    allYearsLoop_eq, allYearsLoop_eq,
    hy 2022 (by simp), hy 2023 (by simp), hy 2024 (by simp)]

theorem simpleForYear_fields {db : TradeDb} {year t : ℕ} {rs : List RaivRecord}
    (ht : tValueOfYear year = some t)
    (h : SimpleRAIVCalculator.calculateRaivForYear db year = .ok rs) :
    ∀ r ∈ rs, r.year = year ∧ r.tValue = t ∧
      r.raiv = raivFormula r.importValue r.timelinessScore r.riskPremium t ∧
      r.country ∈ (sqlImportAgg (db.importRows year)).map (fun p => normalizeCountryName p.1) ∧
      r.country ∈ db.lpiRows.map (fun p => normalizeCountryName p.1) ∧
      r.country ∈ db.riskRows.map (fun p => normalizeCountryName p.1) := by
  rw [SimpleRAIVCalculator.calculateRaivForYear, ht] at h
  intro r hr
  obtain ⟨p, hp, ts, rp, hlp, hrk, hre⟩ := simpleYearLoop_mem h r hr
  subst hre
  refine ⟨rfl, rfl, rfl, ?_, ?_, ?_⟩
  · exact buildDict_keys _ (List.mem_map_of_mem Prod.fst hp)
  · exact buildDict_keys _ (dictLookup_mem_keys hlp)
  · exact buildDict_keys _ (dictLookup_mem_keys hrk)

theorem pandasForYear_empty {db : TradeDb} {year t : ℕ}
    (ht : tValueOfYear year = some t)
    (he : db.importRows year = [] ∨ db.lpiRows = [] ∨ db.riskRows = []) :
    RAIVCalculator.calculateRaivForYear db year = .ok [] := by
  rw [RAIVCalculator.calculateRaivForYear, ht]
  dsimp only
  rw [if_pos]
  rcases he with h | h | h <;>
    simp [RAIVCalculator.getImportData, h, sqlImportAgg]

theorem simpleForYear_empty {db : TradeDb} {year t : ℕ}
    (ht : tValueOfYear year = some t)
    (he : db.importRows year = [] ∨ db.lpiRows = [] ∨ db.riskRows = []) :
    SimpleRAIVCalculator.calculateRaivForYear db year = .ok [] := by
  rw [SimpleRAIVCalculator.calculateRaivForYear, ht]
  rcases he with h | h | h
  · rw [show SimpleRAIVCalculator.getImportData db year = [] from by
      simp [SimpleRAIVCalculator.getImportData, h, sqlImportAgg, buildDict]]
    rfl
  · refine simpleYearLoop_skip (fun p _ => Or.inl ?_)
    rw [show SimpleRAIVCalculator.getLpiData db = [] from by
      simp [SimpleRAIVCalculator.getLpiData, h, buildDict]]
    rfl
  · refine simpleYearLoop_skip (fun p _ => Or.inr ?_)
    rw [show SimpleRAIVCalculator.getRiskPremiumData db = [] from by
      simp [SimpleRAIVCalculator.getRiskPremiumData, h, buildDict]]
    rfl

theorem pandasForYear_tzero_ok (db : TradeDb) :
    ∃ rs, RAIVCalculator.calculateRaivForYear db 2022 = .ok rs := by
  rw [RAIVCalculator.calculateRaivForYear, show tValueOfYear 2022 = some 0 from rfl]
  dsimp only
  split
  · exact ⟨[], rfl⟩
  · exact ⟨_, rfl⟩

theorem simpleForYear_tzero_ok (db : TradeDb) :
    ∃ rs, SimpleRAIVCalculator.calculateRaivForYear db 2022 = .ok rs := by
  rw [SimpleRAIVCalculator.calculateRaivForYear, show tValueOfYear 2022 = some 0 from rfl]
  exact simpleYearLoop_tzero _ _ _ _

theorem normalizeWeights_zero {wr wt wk : ℚ} (h : wr + wt + wk = 0) :
    normalizeWeights wr wt wk = none := by
  simp only [normalizeWeights]
  rw [if_pos h]

theorem normalizeWeights_sum_one {wr wt wk : ℚ} (h : wr + wt + wk ≠ 0) :
    ∃ w1 w2 w3, normalizeWeights wr wt wk = some (w1, w2, w3) ∧ w1 + w2 + w3 = 1 := by
  refine ⟨wr / (wr + wt + wk), wt / (wr + wt + wk), wk / (wr + wt + wk), ?_, ?_⟩
  · simp only [normalizeWeights]
    rw [if_neg h]
  · rw [div_add_div_same, div_add_div_same, div_self h]

theorem vizAppRun_zero {wr wt wk : ℚ} (df : VizDf) (n : ℕ) (h : wr + wt + wk = 0) :
    vizAppRun df wr wt wk n = (df, none) := by
  rw [vizAppRun, normalizeWeights_zero h]

theorem mainAppRun_zero {wr wt wk : ℚ} (df : List MainRow) (hs ys : List ℕ) (n : ℕ)
    (h : wr + wt + wk = 0) : mainAppRun df wr wt wk hs ys n = (df, none) := by
  rw [mainAppRun, normalizeWeights_zero h]

theorem mainAppRun_fst (df : List MainRow) (wr wt wk : ℚ) (hs ys : List ℕ) (n : ℕ) :
    (mainAppRun df wr wt wk hs ys n).1 = df := by
  rw [mainAppRun]
  cases normalizeWeights wr wt wk with
  | none => rfl
  | some w =>
    obtain ⟨w1, w2, w3⟩ := w
    rfl

def exDb : TradeDb where
  importRows := fun y => if y = 2022 then [("USA", 100), ("France+Monac", 50)] else []
  lpiRows := [("France", 4)]
  riskRows := [("France", 1/20)]

def franceRec : RaivRecord :=
  { country := "France", year := 2022, importValue := 50, timelinessScore := 4,
    riskPremium := 1/20, tValue := 0, raiv := 200 }

theorem nUSA : normalizeCountryName "USA" = "USA" := by decide
theorem nFM : normalizeCountryName "France+Monac" = "France" := by decide
theorem nFr : normalizeCountryName "France" = "France" := by decide

theorem exDb_imports : RAIVCalculator.getImportData exDb 2022 = [("USA", (100:ℚ)), ("France+Monac", 50)] := by
  simp [RAIVCalculator.getImportData, exDb, sqlImportAgg, List.dedup_cons_of_not_mem]

theorem exDb_pandas : RAIVCalculator.calculateRaivForYear exDb 2022 = .ok [franceRec] := by
  rw [RAIVCalculator.calculateRaivForYear, show tValueOfYear 2022 = some 0 from rfl]
  dsimp only
  rw [exDb_imports]
  simp only [show exDb.lpiRows = [("France", (4:ℚ))] from rfl,
    show exDb.riskRows = [("France", (1/20:ℚ))] from rfl]
  simp only [List.isEmpty_cons, Bool.false_or, Bool.or_self, Bool.false_eq_true, if_false]
  simp only [normalizeTable, List.map_cons, List.map_nil, nUSA, nFM, nFr]
  simp [List.filter, franceRec, mkRaivRecord, raivFormula]
  norm_num


theorem exDb_simple : SimpleRAIVCalculator.calculateRaivForYear exDb 2022 = .ok [franceRec] := by
  rw [SimpleRAIVCalculator.calculateRaivForYear, show tValueOfYear 2022 = some 0 from rfl]
  have hd : SimpleRAIVCalculator.getImportData exDb 2022 = [("USA", (100:ℚ)), ("France", 50)] := by
    rw [SimpleRAIVCalculator.getImportData, show sqlImportAgg (exDb.importRows 2022) =
      [("USA", (100:ℚ)), ("France+Monac", 50)] from exDb_imports]
    simp [buildDict, dictInsert, nUSA, nFM]
  have hl : SimpleRAIVCalculator.getLpiData exDb = [("France", (4:ℚ))] := by
    simp [SimpleRAIVCalculator.getLpiData, exDb, buildDict, dictInsert, nFr]
  have hr : SimpleRAIVCalculator.getRiskPremiumData exDb = [("France", (1/20:ℚ))] := by
    simp [SimpleRAIVCalculator.getRiskPremiumData, exDb, buildDict, dictInsert, nFr]
  rw [hd, hl, hr]
  simp [simpleYearLoop, dictLookup, computeRaiv, franceRec, Except.map]
  norm_num

theorem exDb_pandas_all : RAIVCalculator.calculateRaivAllYears exDb = [franceRec] := by
  rw [RAIVCalculator.calculateRaivAllYears, allYearsLoop_eq, exDb_pandas,
    @pandasForYear_empty _ 2023 1 rfl (Or.inl rfl),
    @pandasForYear_empty _ 2024 2 rfl (Or.inl rfl)]
  simp [okList, sortRecords, sortByLe, insertLe]

theorem exDb_simple_all : SimpleRAIVCalculator.calculateRaivAllYears exDb = [franceRec] := by
  rw [SimpleRAIVCalculator.calculateRaivAllYears, allYearsLoop_eq, exDb_simple,
    @simpleForYear_empty _ 2023 1 rfl (Or.inl rfl),
    @simpleForYear_empty _ 2024 2 rfl (Or.inl rfl)]
  simp [okList, sortRecords, sortByLe, insertLe]

def dupDb : TradeDb where
  importRows := fun y => if y = 2022 then [("France", 30), ("France+Monac", 50)] else []
  lpiRows := [("France", 4)]
  riskRows := [("France", 0)]

def dupRec1 : RaivRecord :=
  { country := "France", year := 2022, importValue := 30, timelinessScore := 4,
    riskPremium := 0, tValue := 0, raiv := 120 }

def dupRec2 : RaivRecord :=
  { country := "France", year := 2022, importValue := 50, timelinessScore := 4,
    riskPremium := 0, tValue := 0, raiv := 200 }

theorem dupDb_imports : RAIVCalculator.getImportData dupDb 2022 =
    [("France", (30:ℚ)), ("France+Monac", 50)] := by
  simp [RAIVCalculator.getImportData, dupDb, sqlImportAgg, List.dedup_cons_of_not_mem]

theorem dupDb_pandas : RAIVCalculator.calculateRaivForYear dupDb 2022 = .ok [dupRec1, dupRec2] := by
  rw [RAIVCalculator.calculateRaivForYear, show tValueOfYear 2022 = some 0 from rfl]
  dsimp only
  rw [dupDb_imports]
  simp only [show dupDb.lpiRows = [("France", (4:ℚ))] from rfl,
    show dupDb.riskRows = [("France", (0:ℚ))] from rfl]
  simp only [List.isEmpty_cons, Bool.false_or, Bool.or_self, Bool.false_eq_true, if_false]
  simp only [normalizeTable, List.map_cons, List.map_nil, nFM, nFr]
  simp [List.filter, dupRec1, dupRec2, mkRaivRecord, raivFormula]
  norm_num

theorem dupDb_simple : SimpleRAIVCalculator.calculateRaivForYear dupDb 2022 = .ok [dupRec2] := by
  rw [SimpleRAIVCalculator.calculateRaivForYear, show tValueOfYear 2022 = some 0 from rfl]
  have hd : SimpleRAIVCalculator.getImportData dupDb 2022 = [("France", (50:ℚ))] := by
    rw [SimpleRAIVCalculator.getImportData, show sqlImportAgg (dupDb.importRows 2022) =
      [("France", (30:ℚ)), ("France+Monac", 50)] from dupDb_imports]
    simp [buildDict, dictInsert, nFM, nFr]
  have hl : SimpleRAIVCalculator.getLpiData dupDb = [("France", (4:ℚ))] := by
    simp [SimpleRAIVCalculator.getLpiData, dupDb, buildDict, dictInsert, nFr]
  have hr : SimpleRAIVCalculator.getRiskPremiumData dupDb = [("France", (0:ℚ))] := by
    simp [SimpleRAIVCalculator.getRiskPremiumData, dupDb, buildDict, dictInsert, nFr]
  rw [hd, hl, hr]
  simp [simpleYearLoop, dictLookup, computeRaiv, dupRec2, Except.map]
  norm_num

theorem dupDb_pandas_all : RAIVCalculator.calculateRaivAllYears dupDb = [dupRec1, dupRec2] := by
  rw [RAIVCalculator.calculateRaivAllYears, allYearsLoop_eq, dupDb_pandas,
    @pandasForYear_empty _ 2023 1 rfl (Or.inl rfl),
    @pandasForYear_empty _ 2024 2 rfl (Or.inl rfl)]
  simp [okList, sortRecords, sortByLe, insertLe, recordLe, dupRec1, dupRec2]

theorem dupDb_simple_all : SimpleRAIVCalculator.calculateRaivAllYears dupDb = [dupRec2] := by
  rw [SimpleRAIVCalculator.calculateRaivAllYears, allYearsLoop_eq, dupDb_simple,
    @simpleForYear_empty _ 2023 1 rfl (Or.inl rfl),
    @simpleForYear_empty _ 2024 2 rfl (Or.inl rfl)]
  simp [okList, sortRecords, sortByLe, insertLe]


def errDb : TradeDb where
  importRows := fun _ => [("France", 10)]
  lpiRows := [("France", 4)]
  riskRows := [("France", -1)]

def errRec : RaivRecord :=
  { country := "France", year := 2022, importValue := 10, timelinessScore := 4,
    riskPremium := -1, tValue := 0, raiv := 40 }

theorem errDb_dicts : SimpleRAIVCalculator.getImportData errDb 2022 = [("France", (10:ℚ))] ∧
    SimpleRAIVCalculator.getImportData errDb 2023 = [("France", (10:ℚ))] ∧
    SimpleRAIVCalculator.getLpiData errDb = [("France", (4:ℚ))] ∧
    SimpleRAIVCalculator.getRiskPremiumData errDb = [("France", (-1:ℚ))] := by
  refine ⟨?_, ?_, ?_, ?_⟩ <;>
    simp [SimpleRAIVCalculator.getImportData, SimpleRAIVCalculator.getLpiData,
      SimpleRAIVCalculator.getRiskPremiumData, errDb, sqlImportAgg, buildDict, dictInsert, nFr]

theorem errDb_2022 : SimpleRAIVCalculator.calculateRaivForYear errDb 2022 = .ok [errRec] := by
  rw [SimpleRAIVCalculator.calculateRaivForYear, show tValueOfYear 2022 = some 0 from rfl]
  rw [errDb_dicts.1, errDb_dicts.2.2.1, errDb_dicts.2.2.2]
  simp [simpleYearLoop, dictLookup, computeRaiv, errRec, Except.map]
  norm_num

theorem errDb_2023 : SimpleRAIVCalculator.calculateRaivForYear errDb 2023 = .error "ZeroDivisionError" := by
  rw [SimpleRAIVCalculator.calculateRaivForYear, show tValueOfYear 2023 = some 1 from rfl]
  rw [errDb_dicts.2.1, errDb_dicts.2.2.1, errDb_dicts.2.2.2]
  simp [simpleYearLoop, dictLookup, computeRaiv]

theorem errRec_mem_all : errRec ∈ SimpleRAIVCalculator.calculateRaivAllYears errDb :=
  mem_allYears_of_ok (by simp) errDb_2022 (by simp)

def statRecs : List RaivRecord := [
  { country := "A", year := 2022, importValue := 10, timelinessScore := 1,
    riskPremium := 0, tValue := 0, raiv := 10 },
  { country := "B", year := 2022, importValue := 20, timelinessScore := 1,
    riskPremium := 0, tValue := 0, raiv := 20 },
  { country := "C", year := 2022, importValue := 30, timelinessScore := 1,
    riskPremium := 0, tValue := 0, raiv := 30 }]

theorem statRecs_simple : SimpleRAIVCalculator.generateSummaryStatistics statRecs =
    [{ year := 2022, count := 3, raivMean := 20, raivMedian := 20, raivVariance := 200/3,
       raivMin := 10, raivMax := 30, importValueMean := 20, timelinessScoreMean := 1,
       riskPremiumMean := 0 }] := by
  simp [SimpleRAIVCalculator.generateSummaryStatistics, statRecs, yearsOf, sortByLe, insertLe,
    listMean, listMedian, listMin, listMax, popVariance, qLe, List.filter]
  norm_num

theorem statRecs_pandas : RAIVCalculator.generateSummaryStatistics statRecs =
    [{ year := 2022, raivCount := 3, raivMean := 20, raivMedian := 20, raivVariance := 100,
       raivMin := 10, raivMax := 30, importValueMean := 20, importValueMedian := 20,
       timelinessScoreMean := 1, timelinessScoreMedian := 1, riskPremiumMean := 0,
       riskPremiumMedian := 0 }] := by
  simp [RAIVCalculator.generateSummaryStatistics, statRecs, yearsOf, sortByLe, insertLe,
    listMean, listMedian, listMin, listMax, sampleVariance, qLe, List.filter]
  norm_num

def exVizDf : VizDf where
  rows := [{ partnerName := "France", year := 2022, raiv := 200, timelinessScore := 4,
             riskScore := 1/20 }]
  compositeCol := none

theorem viz_mutates : (vizAppRun exVizDf 1 0 0 10).1 ≠ exVizDf := by
  have h : normalizeWeights 1 0 0 = some (1, 0, 0) := by
    simp [normalizeWeights]
  rw [vizAppRun, h]
  simp [exVizDf]

theorem tValueOfYear_sub {year t : ℕ} (ht : tValueOfYear year = some t) :
    t = year - 2022 := by
  rw [tValueOfYear] at ht
  split_ifs at ht with h1 h2 h3 <;> injection ht with ht'
  · subst h1; subst ht'; rfl
  · subst h2; subst ht'; rfl
  · subst h3; subst ht'; rfl

theorem tValueOfYear_2022 {t : ℕ} (ht : tValueOfYear 2022 = some t) : t = 0 := by
  injection ht with h
  exact h.symm

theorem nameMappings_mapped : ∀ p ∈ nameMappings, normalizeCountryName p.1 = p.2 := by
  decide

theorem nameMappings_values_not_keys :
    ∀ p ∈ nameMappings, p.2 ∉ nameMappings.map Prod.fst := by
  decide

theorem normalizeCountryName_of_notin {s : String}
    (h : s ∉ nameMappings.map Prod.fst) : normalizeCountryName s = s := by
  rw [normalizeCountryName]
  have : nameMappings.find? (fun p => p.1 = s) = none := by
    rw [List.find?_eq_none]
    intro p hp
    simp only [decide_eq_true_eq]
    intro hps
    exact h (hps ▸ List.mem_map_of_mem Prod.fst hp)
  rw [this]

theorem normalizeCountryName_idem (s : String) :
    normalizeCountryName (normalizeCountryName s) = normalizeCountryName s := by
  by_cases hf : ∃ p, nameMappings.find? (fun p => p.1 = s) = some p
  · obtain ⟨p, hp⟩ := hf
    have hmem := List.mem_of_find?_eq_some hp
    have h1 : normalizeCountryName s = p.2 := by
      rw [normalizeCountryName, hp]
    rw [h1]
    exact normalizeCountryName_of_notin (nameMappings_values_not_keys p hmem)
  · have hnone : nameMappings.find? (fun p => p.1 = s) = none := by
      cases h : nameMappings.find? (fun p => p.1 = s) with
      | none => rfl
      | some p => exact absurd ⟨p, h⟩ hf
    have h1 : normalizeCountryName s = s := by
      rw [normalizeCountryName, hnone]
    rw [h1, h1]

/-- The two raw rows of the C3 failing input: both partner names normalize to
`France`. -/
def dupRows : List (String × ℚ) := [("France", 30), ("France+Monac", 50)]

theorem dupRows_pandas_table : normalizeTable (sqlImportAgg dupRows) =
    [("France", (30:ℚ)), ("France", 50)] := by
  simp [dupRows, sqlImportAgg, normalizeTable, List.dedup_cons_of_not_mem, nFM, nFr]

theorem dupRows_simple_table : buildDict (sqlImportAgg dupRows) = [("France", (50:ℚ))] := by
  have h : sqlImportAgg dupRows = [("France", (30:ℚ)), ("France+Monac", 50)] := by
    simp [dupRows, sqlImportAgg, List.dedup_cons_of_not_mem]
  rw [h]
  simp [buildDict, dictInsert, nFM, nFr]

/-- Snapshot whose import tables are all empty, for the empty-source branch of
claim C9. -/
def emptyDb : TradeDb where
  importRows := fun _ => []
  lpiRows := [("France", 4)]
  riskRows := [("France", 1/20)]

/-! ## Claims -/

/-- C1: for every joined record at a valid year, both batch calculators set
`t = Year - 2022` and `RAIV = ImportValue * TimelinessScore / (1 + RiskPremium) ^ t`;
in particular for year 2022 (t = 0) the result equals
`ImportValue * TimelinessScore` exactly. -/
theorem claim1_raiv_formula (db : TradeDb) (year t : ℕ) (rs rs' : List RaivRecord)
    (ht : tValueOfYear year = some t)
    (hp : RAIVCalculator.calculateRaivForYear db year = .ok rs)
    (hs : SimpleRAIVCalculator.calculateRaivForYear db year = .ok rs') :
    (∀ r ∈ rs, r.tValue = year - 2022 ∧
      r.raiv = r.importValue * r.timelinessScore / (1 + r.riskPremium) ^ r.tValue ∧
      (year = 2022 → r.raiv = r.importValue * r.timelinessScore)) ∧
    (∀ r ∈ rs', r.tValue = year - 2022 ∧
      r.raiv = r.importValue * r.timelinessScore / (1 + r.riskPremium) ^ r.tValue ∧
      (year = 2022 → r.raiv = r.importValue * r.timelinessScore)) := by
  have hsub := tValueOfYear_sub ht
  constructor
  · intro r hr
    obtain ⟨hy, htv, hf, _⟩ := pandasForYear_fields ht hp r hr
    refine ⟨hsub ▸ htv, ?_, ?_⟩
    · rw [hf, raivFormula, htv]
    · intro h2022
      subst h2022
      have ht0 : t = 0 := tValueOfYear_2022 ht
      rw [hf, ht0, raivFormula, pow_zero, div_one]
  · intro r hr
    obtain ⟨hy, htv, hf, _⟩ := simpleForYear_fields ht hs r hr
    refine ⟨hsub ▸ htv, ?_, ?_⟩
    · rw [hf, raivFormula, htv]
    · intro h2022
      subst h2022
      have ht0 : t = 0 := tValueOfYear_2022 ht
      rw [hf, ht0, raivFormula, pow_zero, div_one]

/-- Witness for C1 at the concrete example snapshot: the France record carries
`RAIV = ImportValue * TimelinessScore` for 2022. -/
theorem claim1_raiv_formula_witness :
    franceRec.raiv = franceRec.importValue * franceRec.timelinessScore ∧
    franceRec.tValue = 2022 - 2022 :=
  have h := (claim1_raiv_formula exDb 2022 0 [franceRec] [franceRec] rfl
    exDb_pandas exDb_simple).1 franceRec (by simp)
  ⟨h.2.2 rfl, h.1⟩

/-- C2, counterexample: on a snapshot whose 2022 import source holds the raw
names `France` and `France+Monac` (both normalizing to `France`), the dataframe
pipeline returns two records for France (ImportValue 30 and 50) while the
dictionary pipeline returns a single record (ImportValue 50, the second fetch
overwriting the first), so the two implementations do not produce the same
RaivRecord set. -/
theorem claim2_counterexample :
    RAIVCalculator.calculateRaivAllYears dupDb = [dupRec1, dupRec2] ∧
    SimpleRAIVCalculator.calculateRaivAllYears dupDb = [dupRec2] ∧
    RAIVCalculator.calculateRaivAllYears dupDb ≠
      SimpleRAIVCalculator.calculateRaivAllYears dupDb := by
  refine ⟨dupDb_pandas_all, dupDb_simple_all, ?_⟩
  rw [dupDb_pandas_all, dupDb_simple_all]
  simp

/-- C2, amended: the two pipelines produce the same RaivRecord table on every
snapshot in which, per source, distinct rows keep distinct canonical names
after normalization and no risk premium equals -1 (dividing the record sets on
which pandas duplicate-join, dict overwriting, and `ZeroDivisionError`
behaviour could differ). -/
theorem claim2_pipelines_equiv (db : TradeDb)
    (h1 : ∀ y ∈ [2022, 2023, 2024],
      ((sqlImportAgg (db.importRows y)).map (fun p => normalizeCountryName p.1)).Nodup)
    (h2 : (db.lpiRows.map (fun p => normalizeCountryName p.1)).Nodup)
    (h3 : (db.riskRows.map (fun p => normalizeCountryName p.1)).Nodup)
    (h4 : ∀ p ∈ db.riskRows, 1 + p.2 ≠ 0) :
    SimpleRAIVCalculator.calculateRaivAllYears db =
      RAIVCalculator.calculateRaivAllYears db ∧
    ∀ y ∈ [2022, 2023, 2024],
      SimpleRAIVCalculator.calculateRaivForYear db y =
        RAIVCalculator.calculateRaivForYear db y :=
  pipelines_equal h1 h2 h3 h4

/-- Witness for C2 at the example snapshot (distinct canonical names, risk
premium 1/20). -/
theorem claim2_pipelines_equiv_witness :
    SimpleRAIVCalculator.calculateRaivAllYears exDb =
      RAIVCalculator.calculateRaivAllYears exDb :=
  (claim2_pipelines_equiv exDb
    (by
      intro y hy
      have hy' : y = 2022 ∨ y = 2023 ∨ y = 2024 := by simpa using hy
      rcases hy' with h | h | h <;> subst h
      · rw [show sqlImportAgg (exDb.importRows 2022) =
          [("USA", (100:ℚ)), ("France+Monac", 50)] from exDb_imports]
        simp [nUSA, nFM]
      · simp [exDb, sqlImportAgg]
      · simp [exDb, sqlImportAgg])
    (by simp [exDb, nFr])
    (by simp [exDb, nFr])
    (by
      intro p hp
      simp only [exDb, List.mem_singleton] at hp
      subst hp
      norm_num)).1

/-- C3: the spec requires two distinct raw names normalizing to the same
canonical country to be merged into one aggregated row carrying their sum.
Neither implementation does this on the failing input
`[(France, 30), (France+Monac, 50)]`: the dataframe pipeline keeps two separate
`France` rows (the SQL groups by the raw name before normalization), and the
dictionary pipeline keeps only the last value 50; neither table contains the
required single row `(France, 80)`. -/
theorem claim3_duplicates_not_merged :
    normalizeCountryName "France+Monac" = normalizeCountryName "France" ∧
    "France+Monac" ≠ "France" ∧
    normalizeTable (sqlImportAgg dupRows) = [("France", 30), ("France", 50)] ∧
    buildDict (sqlImportAgg dupRows) = [("France", 50)] ∧
    normalizeTable (sqlImportAgg dupRows) ≠ [("France", 80)] ∧
    buildDict (sqlImportAgg dupRows) ≠ [("France", 80)] := by
  refine ⟨by decide, by decide, dupRows_pandas_table, dupRows_simple_table, ?_, ?_⟩
  · rw [dupRows_pandas_table]
    simp
  · rw [dupRows_simple_table]
    intro h
    simp only [List.cons.injEq, Prod.mk.injEq] at h
    have := h.1.2
    norm_num at this

/-- C4, counterexample: on the year group with RAIV values `[10, 20, 30]` the
dataframe aggregator reports the sample variance 100 (std 10, pandas
`ddof = 1`), not the population variance 200/3 (std √(200/3)) that the claim
asserts. -/
theorem claim4_counterexample :
    RAIVCalculator.generateSummaryStatistics statRecs =
      [{ year := 2022, raivCount := 3, raivMean := 20, raivMedian := 20, raivVariance := 100,
         raivMin := 10, raivMax := 30, importValueMean := 20, importValueMedian := 20,
         timelinessScoreMean := 1, timelinessScoreMedian := 1, riskPremiumMean := 0,
         riskPremiumMedian := 0 }] ∧
    (100 : ℚ) ≠ 200 / 3 :=
  ⟨statRecs_pandas, by norm_num⟩

/-- C4, amended: on the RAIV group `[10, 20, 30]` both aggregators report mean
20, median 20, min 10, max 30; the dictionary aggregator computes the
population standard deviation (variance 200/3, std √(200/3)) while the
dataframe aggregator computes the sample standard deviation (variance 100,
std 10). -/
theorem claim4_summary_stats :
    SimpleRAIVCalculator.generateSummaryStatistics statRecs =
      [{ year := 2022, count := 3, raivMean := 20, raivMedian := 20, raivVariance := 200/3,
         raivMin := 10, raivMax := 30, importValueMean := 20, timelinessScoreMean := 1,
         riskPremiumMean := 0 }] ∧
    RAIVCalculator.generateSummaryStatistics statRecs =
      [{ year := 2022, raivCount := 3, raivMean := 20, raivMedian := 20, raivVariance := 100,
         raivMin := 10, raivMax := 30, importValueMean := 20, importValueMedian := 20,
         timelinessScoreMean := 1, timelinessScoreMedian := 1, riskPremiumMean := 0,
         riskPremiumMedian := 0 }] :=
  ⟨statRecs_simple, statRecs_pandas⟩

/-- C5: in both explorer scripts, weights summing to zero stop the script with
a configuration error before any score is computed (both app runs return the
unchanged table and no output), and otherwise the normalized weights sum to
exactly 1. -/
theorem claim5_weight_normalization (wr wt wk : ℚ) (df : List MainRow) (dfv : VizDf)
    (hs ys : List ℕ) (n m : ℕ) :
    (wr + wt + wk = 0 →
      normalizeWeights wr wt wk = none ∧
      vizAppRun dfv wr wt wk m = (dfv, none) ∧
      mainAppRun df wr wt wk hs ys n = (df, none)) ∧
    (wr + wt + wk ≠ 0 →
      ∃ w1 w2 w3, normalizeWeights wr wt wk = some (w1, w2, w3) ∧ w1 + w2 + w3 = 1) := by
  constructor
  · intro h
    exact ⟨normalizeWeights_zero h, vizAppRun_zero dfv m h, mainAppRun_zero df hs ys n h⟩
  · intro h
    exact normalizeWeights_sum_one h

/-- Witness for C5 at `(0, 0, 0)` and `(0.4, 0.3, 0.3)`. -/
theorem claim5_weight_normalization_witness :
    normalizeWeights 0 0 0 = none ∧
    vizAppRun exVizDf 0 0 0 10 = (exVizDf, none) ∧
    (∃ w1 w2 w3,
      normalizeWeights (2/5) (3/10) (3/10) = some (w1, w2, w3) ∧ w1 + w2 + w3 = 1) :=
  have h0 := (claim5_weight_normalization 0 0 0 [] exVizDf [] [] 5 10).1 (by norm_num)
  ⟨h0.1, h0.2.1,
    (claim5_weight_normalization (2/5) (3/10) (3/10) [] exVizDf [] [] 5 10).2 (by norm_num)⟩

/-- C6: country normalization is a pure case-sensitive lookup: every key of the
mapping table goes to its canonical value, every other string passes through
unchanged, and the function is idempotent on every string. -/
theorem claim6_normalize_lookup_idempotent :
    (∀ p ∈ nameMappings, normalizeCountryName p.1 = p.2) ∧
    (∀ s : String, s ∉ nameMappings.map Prod.fst → normalizeCountryName s = s) ∧
    (∀ s : String, normalizeCountryName (normalizeCountryName s) = normalizeCountryName s) :=
  ⟨nameMappings_mapped, fun _ h => normalizeCountryName_of_notin h,
    normalizeCountryName_idem⟩

/-- Witness for C6: a mapped key, an unmapped string (also showing case
sensitivity), and idempotence at a mapped key. -/
theorem claim6_normalize_lookup_idempotent_witness :
    normalizeCountryName "Viet Nam" = "Vietnam" ∧
    normalizeCountryName "VIET NAM" = "VIET NAM" ∧
    normalizeCountryName (normalizeCountryName "Viet Nam") = normalizeCountryName "Viet Nam" :=
  ⟨claim6_normalize_lookup_idempotent.1 ("Viet Nam", "Vietnam") (by decide),
    claim6_normalize_lookup_idempotent.2.1 "VIET NAM" (by decide),
    claim6_normalize_lookup_idempotent.2.2 "Viet Nam"⟩

/-- C7: the per-year join is strictly inner in both implementations: a
canonical country missing from the normalized import, LPI, or risk source
appears in no output record; and on the spec example (imports 2022 =
USA 100 and France+Monac 50, LPI = France 4.0, risk = France 0.05) the
pipeline output is exactly the single record
(France, 2022, 50, 4.0, 0.05, t = 0, RAIV = 200). -/
theorem claim7_inner_join (db : TradeDb) (year t : ℕ) (c : String)
    (rs rs' : List RaivRecord) (ht : tValueOfYear year = some t)
    (hp : RAIVCalculator.calculateRaivForYear db year = .ok rs)
    (hs : SimpleRAIVCalculator.calculateRaivForYear db year = .ok rs')
    (hc : c ∉ (sqlImportAgg (db.importRows year)).map (fun p => normalizeCountryName p.1) ∨
      c ∉ db.lpiRows.map (fun p => normalizeCountryName p.1) ∨
      c ∉ db.riskRows.map (fun p => normalizeCountryName p.1)) :
    ((∀ r ∈ rs, r.country ≠ c) ∧ (∀ r ∈ rs', r.country ≠ c)) ∧
    RAIVCalculator.calculateRaivForYear exDb 2022 = .ok [franceRec] ∧
    SimpleRAIVCalculator.calculateRaivForYear exDb 2022 = .ok [franceRec] ∧
    RAIVCalculator.calculateRaivAllYears exDb = [franceRec] ∧
    SimpleRAIVCalculator.calculateRaivAllYears exDb = [franceRec] ∧
    franceRec = ⟨"France", 2022, 50, 4, 1/20, 0, 200⟩ := by
  refine ⟨⟨?_, ?_⟩, exDb_pandas, exDb_simple, exDb_pandas_all, exDb_simple_all, rfl⟩
  · intro r hr hrc
    obtain ⟨_, _, _, hi, hl, hk⟩ := pandasForYear_fields ht hp r hr
    rw [normalizeTable_keys] at hi hl hk
    subst hrc
    rcases hc with h | h | h
    · exact h hi
    · exact h hl
    · exact h hk
  · intro r hr hrc
    obtain ⟨_, _, _, hi, hl, hk⟩ := simpleForYear_fields ht hs r hr
    subst hrc
    rcases hc with h | h | h
    · exact h hi
    · exact h hl
    · exact h hk

/-- Witness for C7: `USA` is absent from the LPI source of the example
snapshot, so no record carries it. -/
theorem claim7_inner_join_witness : franceRec.country ≠ "USA" :=
  ((claim7_inner_join exDb 2022 0 "USA" [franceRec] [franceRec] rfl
    exDb_pandas exDb_simple (Or.inr (Or.inl (by simp [exDb, nFr])))).1).1
    franceRec (by simp)

/-- C8, counterexample: the visualizations-variant explorer writes the
`CompositeScore` column into the loaded table itself (line 44 of
src/visualizations/recommendations_app.py), so after one interaction the
session table differs from the loaded one — the loaded table is mutated in
place. -/
theorem claim8_counterexample : (vizAppRun exVizDf 1 0 0 10).1 ≠ exVizDf :=
  viz_mutates

/-- C8, amended: the main explorer (src/recommendations_app.py) never mutates
the loaded table: every run returns the loaded `raiv_df` unchanged, filters
and aggregations building new tables; the visualizations variant, by contrast,
assigns the `CompositeScore` column on the loaded table in place. -/
theorem claim8_main_no_mutation :
    ∀ (df : List MainRow) (wr wt wk : ℚ) (hs ys : List ℕ) (n : ℕ),
      (mainAppRun df wr wt wk hs ys n).1 = df :=
  fun df wr wt wk hs ys n => mainAppRun_fst df wr wt wk hs ys n

/-- C9: per-year fault isolation in both batch calculators: a year whose
import, LPI, or risk table is empty contributes zero records (no exception),
and every record of a year that computes successfully appears in the combined
all-years output regardless of what other years do (the per-year
`try/except continue` loop). -/
theorem claim9_fault_isolation (db : TradeDb) (year t : ℕ)
    (ht : tValueOfYear year = some t) :
    (db.importRows year = [] ∨ db.lpiRows = [] ∨ db.riskRows = [] →
      RAIVCalculator.calculateRaivForYear db year = .ok [] ∧
      SimpleRAIVCalculator.calculateRaivForYear db year = .ok []) ∧
    (∀ rs r, year ∈ [2022, 2023, 2024] →
      RAIVCalculator.calculateRaivForYear db year = .ok rs → r ∈ rs →
      r ∈ RAIVCalculator.calculateRaivAllYears db) ∧
    (∀ rs r, year ∈ [2022, 2023, 2024] →
      SimpleRAIVCalculator.calculateRaivForYear db year = .ok rs → r ∈ rs →
      r ∈ SimpleRAIVCalculator.calculateRaivAllYears db) := by
  refine ⟨fun he => ⟨pandasForYear_empty ht he, simpleForYear_empty ht he⟩, ?_, ?_⟩
  · intro rs r hy hok hr
    exact mem_allYears_of_ok hy hok hr
  · intro rs r hy hok hr
    exact mem_allYears_of_ok hy hok hr

/-- Witness for C9: on a snapshot with risk premium -1, the 2023 computation
raises `ZeroDivisionError`, yet the 2022 record still appears in the combined
output; and an empty import table gives zero records for that year in both
implementations. -/
theorem claim9_fault_isolation_witness :
    SimpleRAIVCalculator.calculateRaivForYear errDb 2023 = .error "ZeroDivisionError" ∧
    errRec ∈ SimpleRAIVCalculator.calculateRaivAllYears errDb ∧
    RAIVCalculator.calculateRaivForYear emptyDb 2022 = .ok [] ∧
    SimpleRAIVCalculator.calculateRaivForYear emptyDb 2022 = .ok [] :=
  ⟨errDb_2023,
    (claim9_fault_isolation errDb 2022 0 rfl).2.2 [errRec] errRec (by simp)
      errDb_2022 (by simp),
    ((claim9_fault_isolation emptyDb 2022 0 rfl).1 (Or.inl rfl)).1,
    ((claim9_fault_isolation emptyDb 2022 0 rfl).1 (Or.inl rfl)).2⟩

/-- C10: for t = 0 the divisor `(1 + RiskPremium) ^ 0` equals 1 for every risk
premium including -1, the RAIV formula reduces exactly to
`ImportValue * TimelinessScore` independently of the premium, the per-record
computation cannot raise `ZeroDivisionError`, and both calculators always
return a result (never an exception) for year 2022. -/
theorem claim10_tzero_safe :
    (∀ rp : ℚ, (1 + rp) ^ (0:ℕ) = 1) ∧
    (∀ iv ts rp : ℚ, raivFormula iv ts rp 0 = iv * ts) ∧
    (∀ iv ts rp rq : ℚ, raivFormula iv ts rp 0 = raivFormula iv ts rq 0) ∧
    (∀ iv ts rp : ℚ, computeRaiv iv ts rp 0 = .ok (iv * ts)) ∧
    raivFormula 10 4 (-1) 0 = 40 ∧
    (∀ db : TradeDb, ∃ rs, RAIVCalculator.calculateRaivForYear db 2022 = .ok rs) ∧
    (∀ db : TradeDb, ∃ rs, SimpleRAIVCalculator.calculateRaivForYear db 2022 = .ok rs) := by
  have hform : ∀ iv ts rp : ℚ, raivFormula iv ts rp 0 = iv * ts := by
    intro iv ts rp
    rw [raivFormula, pow_zero, div_one]
  refine ⟨fun rp => pow_zero _, hform, ?_, ?_, ?_, pandasForYear_tzero_ok,
    simpleForYear_tzero_ok⟩
  · intro iv ts rp rq
    rw [hform, hform]
  · intro iv ts rp
    rw [computeRaiv, if_neg (by norm_num), pow_zero, div_one]
  · rw [hform]
    norm_num

end SCAPP
